import Mathlib

/-!
Shallow embedding of the ChildGuard profile app (React Native / Expo).

The embedded code lives in:
* `src/app/(tabs)/add_child.tsx` — zod schema `childSchema`, submit handler
  `onSubmit` (create / update), `handleDelete`, `sanitizeForFileSystem`,
  `exportPdfAndImage`, and the hidden `ViewShot` capture card;
* `src/app/(tabs)/index.tsx` — `loadChildren` (list + legacy migration) and
  `handleDeleteChild`;
* `src/components/pdf-builder.tsx` — `buildPdfHtml`.

Modelling conventions:
* AsyncStorage is modelled at the parsed level: the two keys `children_list`
  and `child_profile` hold the decoded values; JSON encode/decode round-trips
  on the well-formed records the app writes, so serialization is abstracted
  as the identity.
* JavaScript numbers are modelled as `Rat`; `Date.now()` readings are `Nat`
  parameters threaded explicitly; `Date.now().toString()` is `toString`.
* zod's `z.coerce.number()` applies JavaScript `Number(...)`; this is
  modelled by `jsNumber`, restricted to the value shapes the form produces
  (strings, numbers, `undefined`) and to plain decimal numerals (the
  hex / exponent / `Infinity` syntaxes never arise here).
-/

namespace ChildGuard

/-- A raw form-field value as delivered to the zod resolver: a string from a
`TextInput`, an already-numeric value, or `undefined` (the default for the
numeric fields). -/
inductive RawValue where
  | str (s : String)
  | num (q : Rat)
  | undef
deriving DecidableEq

/-- Field names of `childSchema`, used to key validation errors. -/
inductive FieldName where
  | fullName
  | age
  | height
  | weight
  | gender
  | medicalNotes
deriving DecidableEq

/-- One zod issue: the offending field together with its message. -/
structure FieldError where
  field : FieldName
  message : String
deriving DecidableEq

/-- The validated form record (`ChildFormData = z.infer<typeof childSchema>`):
`gender` and `medicalNotes` are optional. -/
structure ChildFormData where
  fullName : String
  age : Rat
  height : Rat
  weight : Rat
  gender : Option String
  medicalNotes : Option String
deriving DecidableEq

/-- A stored profile: the form record plus the id assigned by the store
(`{...data, id}` in the submit handler). -/
structure ChildProfile where
  id : String
  fullName : String
  age : Rat
  height : Rat
  weight : Rat
  gender : Option String
  medicalNotes : Option String
deriving DecidableEq

/-- `{...data, id}` — attach an id to a form record. -/
def toProfile (d : ChildFormData) (id : String) : ChildProfile :=
  ⟨id, d.fullName, d.age, d.height, d.weight, d.gender, d.medicalNotes⟩

/-- Numeric value of a list of decimal digit characters. -/
def digitsToNat (l : List Char) : Nat :=
  l.foldl (fun acc c => acc * 10 + (c.toNat - 48)) 0

/-- Parse an unsigned decimal numeral (digits, optionally one point, at least
one digit overall), as accepted by JavaScript `Number`. -/
def parseDecimalCore (l : List Char) : Option Rat :=
  let intPart := l.takeWhile Char.isDigit
  let rest := l.dropWhile Char.isDigit
  match rest with
  | [] => if intPart.isEmpty then none else some (digitsToNat intPart : Rat)
  | '.' :: fracRest =>
      let fracPart := fracRest.takeWhile Char.isDigit
      let rest2 := fracRest.dropWhile Char.isDigit
      if rest2.isEmpty && !(intPart.isEmpty && fracPart.isEmpty) then
        some ((digitsToNat intPart : Rat) +
          (digitsToNat fracPart : Rat) / ((10 : Rat) ^ fracPart.length))
      else none
  | _ => none

/-- Strip leading and trailing whitespace from a character list (JavaScript
`String.prototype.trim`, at the level of characters). -/
def trimChars (l : List Char) : List Char :=
  ((l.dropWhile Char.isWhitespace).reverse.dropWhile Char.isWhitespace).reverse

/-- JavaScript `s.trim()`. -/
def jsTrim (s : String) : String :=
  (trimChars s.data).asString

/-- JavaScript `Number(s)` on a string, restricted to plain decimal numerals:
whitespace is trimmed, the empty (or all-whitespace) string converts to `0`,
an optional sign precedes the numeral, and anything else is NaN (`none`). -/
def jsNumberOfString (s : String) : Option Rat :=
  match trimChars s.data with
  | [] => some 0
  | '-' :: rest => (parseDecimalCore rest).map (fun q => -q)
  | '+' :: rest => parseDecimalCore rest
  | l => parseDecimalCore l

/-- JavaScript `Number(x)` as applied by `z.coerce.number()` to a raw form
value: numbers pass through, strings are converted, `undefined` is NaN. -/
def jsNumber (v : RawValue) : Option Rat :=
  match v with
  | .str s => jsNumberOfString s
  | .num q => some q
  | .undef => none

/-- `z.string().min(2, "Name must be at least 2 characters")`. -/
def checkFullName (v : RawValue) : Except FieldError String :=
  match v with
  | .str s =>
      if 2 ≤ s.length then .ok s
      else .error ⟨.fullName, "Name must be at least 2 characters"⟩
  | .num _ => .error ⟨.fullName, "Expected string, received number"⟩
  | .undef => .error ⟨.fullName, "Required"⟩

/-- `z.coerce.number().min(lo, loMsg)` with an optional `.max(hi, hiMsg)`:
coercion first (NaN is rejected with zod's invalid-type message), then the
range checks. -/
def checkNum (fld : FieldName) (v : RawValue) (lo : Rat) (loMsg : String)
    (hi : Option (Rat × String)) : Except FieldError Rat :=
  match jsNumber v with
  | none => .error ⟨fld, "Expected number, received nan"⟩
  | some q =>
      if q < lo then .error ⟨fld, loMsg⟩
      else
        match hi with
        | some (b, hiMsg) => if b < q then .error ⟨fld, hiMsg⟩ else .ok q
        | none => .ok q

/-- `z.string().optional()`, with an optional `.max(len, msg)` as used for
`medicalNotes`: `undefined` is accepted, a string is length-checked when a
bound is given. -/
def checkOptStr (fld : FieldName) (v : RawValue) (hi : Option (Nat × String)) :
    Except FieldError (Option String) :=
  match v with
  | .undef => .ok none
  | .str s =>
      match hi with
      | some (b, msg) => if s.length ≤ b then .ok (some s) else .error ⟨fld, msg⟩
      | none => .ok (some s)
  | .num _ => .error ⟨fld, "Expected string, received number"⟩

/-- The issues contributed by one field check. -/
def errOf {α : Type} (r : Except FieldError α) : List FieldError :=
  match r with
  | .ok _ => []
  | .error e => [e]

/-- The raw input delivered to the resolver: one `RawValue` per schema key. -/
structure RawChildInput where
  fullName : RawValue
  age : RawValue
  height : RawValue
  weight : RawValue
  gender : RawValue
  medicalNotes : RawValue
deriving DecidableEq

/-- `z.coerce.number().min(0, "Age cannot be negative").max(18, "Must be
under 18")`. -/
def checkAge (v : RawValue) : Except FieldError Rat :=
  checkNum .age v 0 "Age cannot be negative" (some (18, "Must be under 18"))

/-- `z.coerce.number().min(30, "Height (cm) seems too low").max(250, "Height
seems too high")`. -/
def checkHeight (v : RawValue) : Except FieldError Rat :=
  checkNum .height v 30 "Height (cm) seems too low" (some (250, "Height seems too high"))

/-- `z.coerce.number().min(2, "Weight (kg) seems too low")`. -/
def checkWeight (v : RawValue) : Except FieldError Rat :=
  checkNum .weight v 2 "Weight (kg) seems too low" none

/-- `z.string().optional()` for `gender`. -/
def checkGender (v : RawValue) : Except FieldError (Option String) :=
  checkOptStr .gender v none

/-- `z.string().max(300, "Notes are too long (max 300 chars)").optional()`. -/
def checkNotes (v : RawValue) : Except FieldError (Option String) :=
  checkOptStr .medicalNotes v (some (300, "Notes are too long (max 300 chars)"))

/-- `childSchema.parse` (src/app/(tabs)/add_child.tsx lines 24–40): every
field is checked, all issues are collected, and the record is produced only
when no field fails. -/
def validateChild (raw : RawChildInput) : Except (List FieldError) ChildFormData :=
  match checkFullName raw.fullName, checkAge raw.age, checkHeight raw.height,
      checkWeight raw.weight, checkGender raw.gender, checkNotes raw.medicalNotes with
  | .ok n, .ok a, .ok h, .ok w, .ok g, .ok m => .ok ⟨n, a, h, w, g, m⟩
  | rn, ra, rh, rw, rg, rm =>
      .error (errOf rn ++ errOf ra ++ errOf rh ++ errOf rw ++ errOf rg ++ errOf rm)

/-- Validation fails and some reported issue names the given field. -/
def failsNaming (raw : RawChildInput) (fld : FieldName) : Prop :=
  ∃ errs, validateChild raw = .error errs ∧ ∃ e ∈ errs, e.field = fld

/-! ## The profile store (AsyncStorage keys `children_list` and `child_profile`) -/

/-- The two persisted keys, at the parsed level: `children_list` holds the
list-format record, `child_profile` the legacy single-profile record (saved
without an id by the pre-list screen). -/
structure Storage where
  children_list : Option (List ChildProfile)
  child_profile : Option ChildFormData
deriving DecidableEq

/-- `loadChildren` (src/app/(tabs)/index.tsx lines 24–50): read the list
format; if absent, migrate the legacy record (assign `Date.now().toString()`
as id, persist as a one-element list, delete the legacy key); if neither
exists, the empty list.  `now` is the `Date.now()` reading. -/
def loadChildren (st : Storage) (now : Nat) : List ChildProfile × Storage :=
  match st.children_list with
  | some childrenList => (childrenList, st)
  | none =>
      match st.child_profile with
      | some oldChild =>
          let migratedChild := toProfile oldChild (toString now)
          ([migratedChild], ⟨some [migratedChild], none⟩)
      | none => ([], st)

/-- `handleDeleteChild` (src/app/(tabs)/index.tsx lines 65–86): filter the
in-memory snapshot `children` by `child.id !== id` and persist the filtered
snapshot wholesale; the screen state is set to the same filtered list.  The
confirmation dialog is external UI and not modelled. -/
def handleDeleteChild (children : List ChildProfile) (st : Storage) (id : String) :
    List ChildProfile × Storage :=
  let updatedChildren := children.filter (fun child => child.id != id)
  (updatedChildren, { st with children_list := some updatedChildren })

/-- Outcome of the edit screen's delete handler: the success alert, or the
`'No children found'` error alert. -/
inductive DeleteOutcome where
  | success
  | noChildren
deriving DecidableEq

/-- `handleDelete` (src/app/(tabs)/add_child.tsx lines 127–165): read the
stored list; if present, persist it filtered by `c.id !== id` and report
success; if the key is absent, report the `'No children found'` error. -/
def handleDelete (st : Storage) (id : String) : DeleteOutcome × Storage :=
  match st.children_list with
  | some childrenList =>
      (.success,
       { st with children_list := some (childrenList.filter (fun c => c.id != id)) })
  | none => (.noChildren, st)

/-- Outcome of the submit handler: a created profile, an updated profile, or
the `'Child profile not found'` error in edit mode. -/
inductive SubmitResult where
  | created (p : ChildProfile)
  | updated (p : ChildProfile)
  | notFound
deriving DecidableEq

/-- `onSubmit` (src/app/(tabs)/add_child.tsx lines 168–220).  In edit mode
(`editId = some i`) the record at that id is replaced in place keeping the
same id, and the handler returns before any write when the id is missing.
Otherwise a new profile with id `Date.now().toString()` is appended; then, if
the legacy key exists, its record is migrated with id
`(Date.now() + 1).toString()` and the legacy key removed.  `now` is the
`Date.now()` reading of the create, `migNow` that of the migration step. -/
def onSubmit (editId : Option String) (data : ChildFormData) (st : Storage)
    (now migNow : Nat) : SubmitResult × Storage :=
  let childrenList := st.children_list.getD []
  match editId with
  | some i =>
      match childrenList.findIdx? (fun c => c.id == i) with
      | some childIndex =>
          (.updated (toProfile data i),
           { st with children_list := some (childrenList.set childIndex (toProfile data i)) })
      | none => (.notFound, st)
  | none =>
      let newChild := toProfile data (toString now)
      let list1 := childrenList ++ [newChild]
      match st.child_profile with
      | some oldChild =>
          let migratedChild := toProfile oldChild (toString (migNow + 1))
          (.created newChild, ⟨some (list1 ++ [migratedChild]), none⟩)
      | none => (.created newChild, ⟨some list1, none⟩)

/-! ## Artifact naming (`sanitizeForFileSystem`) -/

/-- A character matched by the class `[a-z0-9-_]` under the `i` flag:
ASCII letters, digits, `-`, `_`. -/
def isSafeChar (c : Char) : Bool :=
  c.isAlpha || c.isDigit || c == '-' || c == '_'

/-- `List.dropWhile` never lengthens a list. -/
lemma dropWhile_length_le (p : Char → Bool) (l : List Char) :
    (l.dropWhile p).length ≤ l.length := by
  induction l with
  | nil => simp
  | cons c cs ih =>
      by_cases h : p c
      · simp only [List.dropWhile, h]
        exact le_trans ih (Nat.le_succ _)
      · simp [List.dropWhile, h]

/-- `replace(/[^a-z0-9-_]+/gi, "_")`: each maximal run of characters outside
the class is replaced by a single underscore. -/
def collapseRuns : List Char → List Char
  | [] => []
  | c :: cs =>
      if isSafeChar c then c :: collapseRuns cs
      else '_' :: collapseRuns (cs.dropWhile (fun d => !isSafeChar d))
termination_by l => l.length
decreasing_by
  · simp only [List.length_cons]; omega
  · simp only [List.length_cons]
    exact Nat.lt_succ_of_le (dropWhile_length_le _ _)

/-- `sanitizeForFileSystem` (src/app/(tabs)/add_child.tsx lines 222–226):
trim, replace runs of unsupported characters with `_`, then either truncate
to 40 characters or fall back to `"child"` when the cleaned string is empty. -/
def sanitizeForFileSystem (value : String) : String :=
  let fallback := "child"
  let clean := collapseRuns (trimChars value.data)
  if clean.length ≠ 0 then (clean.take 40).asString else fallback

/-- The artifact-naming rule exactly as the specification sentence states it:
every character outside `[A-Za-z0-9-_]` is replaced by one underscore, the
result is truncated to 40 characters, and a fixed default name is used
exactly when the sanitized result is empty.  Written from the spec's words,
for comparison against `sanitizeForFileSystem`. -/
def sanitizeSpecClaim (value : String) : String :=
  let replaced := value.data.map (fun c => if isSafeChar c then c else '_')
  if replaced.length ≠ 0 then (replaced.take 40).asString else "child"

/-- Spec-side run collapsing, written independently as a two-state scanner:
the flag records whether the previous character was part of an unsupported
run. -/
def collapseScan : Bool → List Char → List Char
  | _, [] => []
  | inRun, c :: cs =>
      if isSafeChar c then c :: collapseScan false cs
      else if inRun then collapseScan true cs
      else '_' :: collapseScan true cs

/-- The amended artifact-naming rule: trim whitespace, replace each maximal
run of characters outside `[A-Za-z0-9-_]` by a single underscore, truncate
to 40, and fall back to `"child"` exactly when the trimmed input is empty. -/
def sanitizeSpecAmended (value : String) : String :=
  let t := trimChars value.data
  if t.isEmpty then "child" else ((collapseScan false t).take 40).asString

/-! ## Export flow (`exportPdfAndImage`, export-variant screen) -/

/-- Observable effects of the export flow, in program order. -/
inductive ExportEffect where
  | captureDataSet
  | pdfFileCreated
  | imageSnapshotCaptured
  | permissionRequested
  | assetSavedToLibrary
  | albumCreated (name : String)
  | assetAddedToAlbum (name : String)
  | alerted (title : String)
deriving DecidableEq

/-- `exportPdfAndImage` (export-variant screen, src/unnamed/part_001 lines
993–1036) as its trace of effects: the capture card is fed, the PDF file is
produced by `Print.printToFileAsync`, the offscreen card is snapshotted, and
only then is media-library permission requested; on denial the handler alerts
and returns, otherwise the snapshot is saved to the library and filed into
the per-child album.  `granted` is the permission outcome and `albumExists`
whether `getAlbumAsync` finds the album.  The `isExporting` UI flag and the
30 ms settling delay carry no artifact effects and are not modelled. -/
def exportPdfAndImage (data : ChildFormData) (granted albumExists : Bool) :
    List ExportEffect :=
  let safeName := sanitizeForFileSystem data.fullName
  let albumName := "ChildGuardID - " ++ safeName
  [.captureDataSet, .pdfFileCreated, .imageSnapshotCaptured, .permissionRequested] ++
    (if !granted then [.alerted "Permission needed"]
     else
       [.assetSavedToLibrary] ++
         (if albumExists then [.assetAddedToAlbum albumName]
          else [.albumCreated albumName]) ++
         [.alerted "Saved"])

/-! ## Rendered field content of the two artifacts -/

/-- The field content of one rendered card: the title line, the name line,
the three numeric rows, and the gender and medical-notes texts.  Numeric
rows are kept as the numbers fed to the interpolation (both artifacts
stringify them with the same platform conversion). -/
structure CardContent where
  title : String
  name : String
  age : Rat
  gender : String
  height : Rat
  weight : Rat
  notes : String
deriving DecidableEq

/-- JavaScript `x || dflt` for a string option: the default replaces
`undefined` and the empty string. -/
def jsOrElse (x : Option String) (dflt : String) : String :=
  match x with
  | some s => if s.isEmpty then dflt else s
  | none => dflt

/-- Field content of the printable document (`buildPdfHtml`,
src/components/pdf-builder.tsx lines 12–38): the name is interpolated
verbatim, the gender falls back to an em dash, the notes to
`"None provided"`. -/
def pdfContent (data : ChildFormData) : CardContent :=
  { title := "Child Guard ID"
    name := data.fullName
    age := data.age
    gender := jsOrElse data.gender "—"
    height := data.height
    weight := data.weight
    notes := jsOrElse data.medicalNotes "None provided" }

/-- Field content of the hidden `ViewShot` capture card of the
export-variant screen (src/unnamed/part_001 lines 1207–1240): the name is
`(fullName || "").trim() || "Name missing"`, and the gender fallback at line
1224 is the three-character sequence U+00E2 U+20AC U+201D (source bytes
C3 A2 E2 82 AC E2 80 9D, a mis-encoded em dash), *not* the em dash U+2014
the document uses; age, height, weight and the notes fallback match the
document. -/
def captureContent (data : ChildFormData) : CardContent :=
  { title := "Child Guard ID"
    name := jsOrElse (some (jsTrim data.fullName)) "Name missing"
    age := data.age
    gender := jsOrElse data.gender "â€”"
    height := data.height
    weight := data.weight
    notes := jsOrElse data.medicalNotes "None provided" }

/-! ## The printable document (`buildPdfHtml`) -/

/-- `PdfChildData` (src/components/pdf-builder.tsx lines 1–8): the numeric
fields and the two texts are optional in the document builder's input type. -/
structure PdfChildData where
  fullName : String
  age : Option Rat
  height : Option Rat
  weight : Option Rat
  gender : Option String
  medicalNotes : Option String
deriving DecidableEq

/-- JavaScript number-to-string conversion, for rationals whose denominator
divides a power of ten (the only values the app's decimal coercion
produces); other rationals fall back to a fraction rendering that never
arises in the embedded flows. -/
def jsNumToString (q : Rat) : String :=
  let sign := if q.num < 0 then "-" else ""
  let n := q.num.natAbs
  let d := q.den
  match (List.range 21).find? (fun k => 10 ^ k % d == 0) with
  | some 0 => sign ++ toString n
  | some k =>
      let scaled := n * (10 ^ k / d)
      let ds0 := toString scaled
      let ds := if ds0.length ≤ k
        then (List.replicate (k + 1 - ds0.length) '0').asString ++ ds0
        else ds0
      sign ++ (ds.data.take (ds.length - k)).asString ++ "." ++
        (ds.data.drop (ds.length - k)).asString
  | none => sign ++ toString n ++ "/" ++ toString d

/-- `${x ?? ""}` for an optional number. -/
def dispNum (x : Option Rat) : String :=
  match x with
  | some q => jsNumToString q
  | none => ""

/-- The template text preceding the `fullName` interpolation. -/
def pdfSeg1 : String :=
  "<!DOCTYPE html>\n<html>\n    <head>\n    <meta charset=\"utf-8\" />\n    <style>\n        body \x7b font-family: Arial, sans-serif; padding: 24px; color: #1a1a1a; \x7d\n        h1 \x7b font-size: 24px; margin-bottom: 12px; \x7d\n        h2 \x7b font-size: 16px; margin-top: 18px; margin-bottom: 6px; color: #007AFF; \x7d\n        .card \x7b border: 1px solid #e5e5e5; border-radius: 12px; padding: 16px; box-shadow: 0 4px 10px rgba(0,0,0,0.05); \x7d\n        .row \x7b display: flex; justify-content: space-between; margin-bottom: 8px; \x7d\n        .label \x7b font-weight: 600; color: #555; \x7d\n        .value \x7b color: #111; \x7d\n    </style>\n    </head>\n    <body>\n    <h1>Child Guard ID</h1>\n    <div class=\"card\">\n        <div class=\"row\"><span class=\"label\">Full Name:</span><span class=\"value\">"

/-- The template text between `fullName` and the age interpolation. -/
def pdfSeg2 : String :=
  "</span></div>\n        <div class=\"row\"><span class=\"label\">Age:</span><span class=\"value\">"

/-- The template text between age and the gender interpolation. -/
def pdfSeg3 : String :=
  "</span></div>\n        <div class=\"row\"><span class=\"label\">Gender:</span><span class=\"value\">"

/-- The template text between gender and the height interpolation. -/
def pdfSeg4 : String :=
  "</span></div>\n        <div class=\"row\"><span class=\"label\">Height (cm):</span><span class=\"value\">"

/-- The template text between height and the weight interpolation. -/
def pdfSeg5 : String :=
  "</span></div>\n        <div class=\"row\"><span class=\"label\">Weight (kg):</span><span class=\"value\">"

/-- The template text between weight and the medical-notes interpolation. -/
def pdfSeg6 : String :=
  "</span></div>\n        <h2>Medical Notes</h2>\n        <p>"

/-- The template text after the medical-notes interpolation. -/
def pdfSeg7 : String :=
  "</p>\n    </div>\n    </body>\n</html>"

/-- `buildPdfHtml` (src/components/pdf-builder.tsx lines 12–38): the template
literal producing the document HTML, written as the concatenation of its
constant segments and its interpolations.  Interpolations are string
concatenation; no escaping of any kind is applied to the interpolated
values. -/
def buildPdfHtml (data : PdfChildData) : String :=
  pdfSeg1 ++ data.fullName ++ pdfSeg2 ++ dispNum data.age ++ pdfSeg3 ++
    jsOrElse data.gender "—" ++ pdfSeg4 ++ dispNum data.height ++ pdfSeg5 ++
    dispNum data.weight ++ pdfSeg6 ++ jsOrElse data.medicalNotes "None provided" ++
    pdfSeg7

/-! ## Injectivity of `Date.now().toString()`

The ids the store assigns are `toString` of a clock reading; distinct
readings give distinct ids because `Nat.repr` is injective.  This is proved
by relating the core digit printer to `Nat.digits`. -/

/-- The core digit printer agrees with `Nat.digits` (most significant digit
first) on positive numbers, for sufficient fuel. -/
lemma toDigitsCore_eq_digits :
    ∀ (fuel n : Nat) (ds : List Char), n < fuel → n ≠ 0 →
      Nat.toDigitsCore 10 fuel n ds =
        ((Nat.digits 10 n).map Nat.digitChar).reverse ++ ds := by
  intro fuel
  induction fuel with
  | zero => omega
  | succ fuel ih =>
      intro n ds hfuel hn
      have h10 : (1 : Nat) < 10 := by norm_num
      rw [Nat.toDigitsCore]
      rw [Nat.digits_def' h10 (Nat.pos_of_ne_zero hn)]
      by_cases hdiv : n / 10 = 0
      · rw [if_pos hdiv, hdiv]
        simp
      · rw [if_neg hdiv]
        have hlt : n / 10 < fuel :=
          lt_of_lt_of_le (Nat.div_lt_self (Nat.pos_of_ne_zero hn) (by norm_num))
            (Nat.lt_succ_iff.mp hfuel)
        rw [ih (n / 10) _ hlt hdiv]
        simp

/-- `Nat.digits 10 n`, padded so that zero also has one digit; this is what
the printer renders. -/
def paddedDigits (n : Nat) : List Nat :=
  if n = 0 then [0] else Nat.digits 10 n

/-- `Nat.toDigits 10` renders exactly the padded digit list, reversed. -/
lemma toDigits_eq_paddedDigits (n : Nat) :
    Nat.toDigits 10 n = ((paddedDigits n).map Nat.digitChar).reverse := by
  by_cases hn : n = 0
  · subst hn; rfl
  · rw [Nat.toDigits, toDigitsCore_eq_digits (n + 1) n [] (Nat.lt_succ_self n) hn,
      List.append_nil, paddedDigits, if_neg hn]

/-- Every padded digit is a base-10 digit. -/
lemma paddedDigits_lt (n : Nat) : ∀ d ∈ paddedDigits n, d < 10 := by
  intro d hd
  by_cases hn : n = 0
  · subst hn; simp [paddedDigits] at hd; omega
  · rw [paddedDigits, if_neg hn] at hd
    exact Nat.digits_lt_base (by norm_num) hd

/-- The padded digit list determines the number. -/
lemma paddedDigits_inj (m n : Nat) (h : paddedDigits m = paddedDigits n) : m = n := by
  have hm : Nat.ofDigits 10 (paddedDigits m) = m := by
    by_cases hm0 : m = 0
    · subst hm0; simp [paddedDigits, Nat.ofDigits]
    · rw [paddedDigits, if_neg hm0]
      exact_mod_cast Nat.ofDigits_digits 10 m
  have hn : Nat.ofDigits 10 (paddedDigits n) = n := by
    by_cases hn0 : n = 0
    · subst hn0; simp [paddedDigits, Nat.ofDigits]
    · rw [paddedDigits, if_neg hn0]
      exact_mod_cast Nat.ofDigits_digits 10 n
  rw [← hm, ← hn, h]

/-- `Nat.digitChar` is injective on base-10 digits. -/
lemma digitChar_inj : ∀ a < 10, ∀ b < 10, Nat.digitChar a = Nat.digitChar b → a = b := by
  decide

/-- Mapping `Nat.digitChar` over digit lists is injective. -/
lemma map_digitChar_inj :
    ∀ (l1 l2 : List Nat), (∀ x ∈ l1, x < 10) → (∀ x ∈ l2, x < 10) →
      l1.map Nat.digitChar = l2.map Nat.digitChar → l1 = l2 := by
  intro l1
  induction l1 with
  | nil =>
      intro l2 _ _ h
      cases l2 with
      | nil => rfl
      | cons b t2 => simp at h
  | cons a t ih =>
      intro l2 h1 h2 h
      cases l2 with
      | nil => simp at h
      | cons b t2 =>
          simp only [List.map_cons, List.cons.injEq] at h
          obtain ⟨hab, ht⟩ := h
          have hab2 : a = b :=
            digitChar_inj a (h1 a (by simp)) b (h2 b (by simp)) hab
          subst hab2
          rw [ih t2 (fun x hx => h1 x (by simp [hx]))
            (fun x hx => h2 x (by simp [hx])) ht]

/-- `Nat.repr` — and hence `toString` on `Nat`, the model of
`Date.now().toString()` — is injective. -/
lemma natRepr_inj (m n : Nat) (h : Nat.repr m = Nat.repr n) : m = n := by
  have hchars : Nat.toDigits 10 m = Nat.toDigits 10 n := by
    have := congrArg String.data h
    simpa [Nat.repr, List.asString] using this
  rw [toDigits_eq_paddedDigits, toDigits_eq_paddedDigits] at hchars
  have hmap : (paddedDigits m).map Nat.digitChar = (paddedDigits n).map Nat.digitChar :=
    List.reverse_injective hchars
  exact paddedDigits_inj m n
    (map_digitChar_inj _ _ (paddedDigits_lt m) (paddedDigits_lt n) hmap)

/-- `toString` on `Nat` is `Nat.repr`, so it is injective as well. -/
lemma natToString_inj (m n : Nat) (h : toString m = toString n) : m = n :=
  natRepr_inj m n h

/-! ## Shared concrete sample data -/

/-- A sample validated form record (`{fullName: "Al", age: 5, height: 110,
weight: 18}`). -/
def dSample : ChildFormData := ⟨"Al", 5, 110, 18, none, none⟩

/-- The sample record stored under id `"a"`. -/
def profileA : ChildProfile := ⟨"a", "Al", 5, 110, 18, none, none⟩

/-! ## C7 — migration idempotence -/

/-- C7: starting from storage holding only a legacy single-profile record,
`loadChildren` assigns it the id `Date.now().toString()`, persists it as a
one-element list and deletes the legacy key; a second call returns the same
single-element list and leaves storage unchanged, the legacy key being
absent after the first call. -/
theorem migration_idempotent (oldChild : ChildFormData) (t1 t2 : Nat) :
    loadChildren ⟨none, some oldChild⟩ t1 =
      ([toProfile oldChild (toString t1)],
       ⟨some [toProfile oldChild (toString t1)], none⟩) ∧
    loadChildren (loadChildren ⟨none, some oldChild⟩ t1).2 t2 =
      ((loadChildren ⟨none, some oldChild⟩ t1).1,
       (loadChildren ⟨none, some oldChild⟩ t1).2) ∧
    (loadChildren ⟨none, some oldChild⟩ t1).2.child_profile = none :=
  ⟨rfl, rfl, rfl⟩

/-! ## C1 — id uniqueness under rapid creation -/

/-- C1 counterexample: two create submissions whose `Date.now()` readings
fall in the same millisecond append two profiles that carry the *same* id
`"1000"`, so creation in quick succession does not guarantee distinct ids. -/
theorem create_same_millisecond_same_id :
    (onSubmit none dSample ⟨some [], none⟩ 1000 1000).1 =
      .created (toProfile dSample "1000") ∧
    (onSubmit none dSample (onSubmit none dSample ⟨some [], none⟩ 1000 1000).2
        1000 1000).1 =
      .created (toProfile dSample "1000") ∧
    (onSubmit none dSample (onSubmit none dSample ⟨some [], none⟩ 1000 1000).2
        1000 1000).2.children_list =
      some [toProfile dSample "1000", toProfile dSample "1000"] :=
  ⟨rfl, rfl, rfl⟩

/-- C1 amended: each created profile receives the id
`Date.now().toString()`, so two creates receive distinct ids exactly when
their clock readings differ; within one millisecond the ids collide. -/
theorem create_ids_from_clock (st : Storage) (d1 d2 : ChildFormData)
    (t1 m1 t2 m2 : Nat) (hleg : st.child_profile = none) :
    (onSubmit none d1 st t1 m1).1 = .created (toProfile d1 (toString t1)) ∧
    (onSubmit none d2 (onSubmit none d1 st t1 m1).2 t2 m2).1 =
      .created (toProfile d2 (toString t2)) ∧
    (onSubmit none d2 (onSubmit none d1 st t1 m1).2 t2 m2).2.children_list =
      some (st.children_list.getD [] ++
        [toProfile d1 (toString t1), toProfile d2 (toString t2)]) ∧
    ((toProfile d1 (toString t1)).id = (toProfile d2 (toString t2)).id ↔ t1 = t2) := by
  obtain ⟨cl, cp⟩ := st
  cases cp with
  | none =>
      refine ⟨rfl, rfl, ?_, ?_⟩
      · simp [onSubmit, toProfile]
      · constructor
        · intro h
          exact natToString_inj t1 t2 h
        · intro h
          rw [h]
          rfl
  | some _ => cases hleg

/-- Witness for C1 amended: readings 1 and 2 give ids `"1"` and `"2"`. -/
theorem create_ids_from_clock_witness :
    (onSubmit none dSample ⟨some [], none⟩ 1 9).1 =
      .created (toProfile dSample (toString 1)) ∧
    (onSubmit none dSample (onSubmit none dSample ⟨some [], none⟩ 1 9).2 2 9).1 =
      .created (toProfile dSample (toString 2)) ∧
    (onSubmit none dSample (onSubmit none dSample ⟨some [], none⟩ 1 9).2 2 9).2.children_list =
      some ((Storage.mk (some []) none).children_list.getD [] ++
        [toProfile dSample (toString 1), toProfile dSample (toString 2)]) ∧
    ((toProfile dSample (toString 1)).id = (toProfile dSample (toString 2)).id ↔
      (1 : Nat) = 2) :=
  create_ids_from_clock ⟨some [], none⟩ dSample dSample 1 9 2 9 rfl

/-! ## C2 — delete and NotFound -/

/-- C2 counterexample: with the stored list holding only the record with id
`"a"`, deleting the absent id `"b"` reports success and persists the list
unchanged; no NotFound outcome occurs even though no record with id `"b"`
exists. -/
theorem delete_missing_id_reports_success :
    handleDelete ⟨some [profileA], none⟩ "b" =
      (.success, ⟨some [profileA], none⟩) ∧
    (∀ c ∈ [profileA], c.id ≠ "b") :=
  ⟨rfl, by decide⟩

/-- C2 amended: the delete handlers remove every record with the given id
and persist the full filtered list, reporting success regardless of whether
the id was present; the edit screen's handler reports its error outcome only
when the `children_list` key is absent entirely, and the list screen's
handler filters its in-memory snapshot and never reports a failure. -/
theorem delete_behavior (st : Storage) (idv : String) :
    (∀ l, st.children_list = some l →
      handleDelete st idv =
        (.success, ⟨some (l.filter (fun c => c.id != idv)), st.child_profile⟩) ∧
      (∀ c ∈ l.filter (fun c => c.id != idv), c.id ≠ idv) ∧
      (∀ c ∈ l, c.id ≠ idv → c ∈ l.filter (fun c => c.id != idv))) ∧
    (st.children_list = none → handleDelete st idv = (.noChildren, st)) ∧
    (∀ children : List ChildProfile,
      handleDeleteChild children st idv =
        (children.filter (fun c => c.id != idv),
         { st with children_list := some (children.filter (fun c => c.id != idv)) })) := by
  refine ⟨?_, ?_, fun children => rfl⟩
  · intro l hl
    refine ⟨?_, ?_, ?_⟩
    · obtain ⟨cl, cp⟩ := st
      cases hl
      rfl
    · intro c hc
      have := (List.mem_filter.mp hc).2
      simpa using this
    · intro c hc hne
      exact List.mem_filter.mpr ⟨hc, by simpa using hne⟩
  · intro hl
    obtain ⟨cl, cp⟩ := st
    cases hl
    rfl

/-- Witness for C2 amended: a present id is removed, and the error outcome
occurs exactly when no list record exists. -/
theorem delete_behavior_witness :
    handleDelete ⟨some [profileA], none⟩ "a" =
      (.success, ⟨some ([profileA].filter (fun c => c.id != "a")), none⟩) ∧
    handleDelete ⟨none, none⟩ "a" = (.noChildren, ⟨none, none⟩) :=
  ⟨((delete_behavior ⟨some [profileA], none⟩ "a").1 [profileA] rfl).1,
   (delete_behavior ⟨none, none⟩ "a").2.1 rfl⟩

/-! ## C8 — update in place / NotFound -/

/-- C8: in edit mode the submit handler fails with the not-found outcome and
performs no storage write exactly when no stored record has the target id
(third conjunct characterizes absence); when the id is found at `idx`, the
record there is replaced by the new data under the same id, preserving its
position: the list keeps its length, holds the replacement at `idx`, and is
untouched everywhere else. -/
theorem update_in_place (st : Storage) (d : ChildFormData) (i : String) (n1 n2 : Nat) :
    ((st.children_list.getD []).findIdx? (fun c => c.id == i) = none →
      onSubmit (some i) d st n1 n2 = (.notFound, st)) ∧
    (∀ idx, (st.children_list.getD []).findIdx? (fun c => c.id == i) = some idx →
      onSubmit (some i) d st n1 n2 =
        (.updated (toProfile d i),
         ⟨some ((st.children_list.getD []).set idx (toProfile d i)),
          st.child_profile⟩) ∧
      ((st.children_list.getD []).set idx (toProfile d i)).length =
        (st.children_list.getD []).length ∧
      ((st.children_list.getD []).set idx (toProfile d i))[idx]? =
        some (toProfile d i) ∧
      (∀ j, j ≠ idx →
        ((st.children_list.getD []).set idx (toProfile d i))[j]? =
          (st.children_list.getD [])[j]?)) ∧
    ((st.children_list.getD []).findIdx? (fun c => c.id == i) = none ↔
      ∀ c ∈ st.children_list.getD [], c.id ≠ i) := by
  refine ⟨?_, ?_, ?_⟩
  · intro h
    simp only [onSubmit, h]
  · intro idx h
    have hlt : idx < (st.children_list.getD []).length :=
      (List.findIdx?_eq_some_iff_findIdx_eq.mp h).1
    refine ⟨?_, List.length_set _ _ _, List.getElem?_set_self hlt, ?_⟩
    · simp only [onSubmit, h]
    · intro j hj
      exact List.getElem?_set_ne (Ne.symm hj)
  · rw [List.findIdx?_eq_none_iff]
    constructor
    · intro h c hc
      simpa using h c hc
    · intro h c hc
      simpa using h c hc

/-- Witness for C8: updating a missing id leaves storage untouched, updating
the present id `"a"` replaces the record in place. -/
theorem update_in_place_witness :
    onSubmit (some "b") dSample ⟨some [profileA], none⟩ 3 3 =
      (.notFound, ⟨some [profileA], none⟩) ∧
    onSubmit (some "a") dSample ⟨some [profileA], none⟩ 3 3 =
      (.updated (toProfile dSample "a"),
       ⟨some ([profileA].set 0 (toProfile dSample "a")), none⟩) :=
  ⟨(update_in_place ⟨some [profileA], none⟩ dSample "b" 3 3).1 rfl,
   ((update_in_place ⟨some [profileA], none⟩ dSample "a" 3 3).2.1 0 rfl).1⟩

/-! ## C3 — artifact name sanitization -/

/-- One step of the scanner keeps the result nonempty on nonempty input. -/
lemma collapseScan_cons_ne_nil (c : Char) (cs : List Char) :
    collapseScan false (c :: cs) ≠ [] := by
  by_cases h : isSafeChar c <;> simp [collapseScan, h]

lemma collapseScan_true_eq (l : List Char) :
    collapseScan true l = collapseScan false (l.dropWhile (fun d => !isSafeChar d)) := by
  induction l with
  | nil => rfl
  | cons c cs ih =>
      by_cases h : isSafeChar c
      · simp [collapseScan, h, List.dropWhile]
      · simp [collapseScan, h, List.dropWhile, ih]

/-- The source's run replacement agrees with the two-state scanner. -/
lemma collapseRuns_eq_scan (l : List Char) : collapseRuns l = collapseScan false l := by
  induction l using collapseRuns.induct with
  | case1 => simp [collapseRuns, collapseScan]
  | case2 c cs h ih => simp [collapseRuns, collapseScan, h, ih]
  | case3 c cs h ih =>
      simp only [collapseRuns, collapseScan, h, if_neg, ih, collapseScan_true_eq]
      simp [h]

/-- C3 counterexample: on `"a!!b"` the code collapses the run `"!!"` into a
single underscore, producing `"a_b"`, while the claimed per-character
replacement would produce `"a__b"`; the two disagree. -/
theorem sanitize_counterexample :
    sanitizeForFileSystem "a!!b" = "a_b" ∧
    sanitizeSpecClaim "a!!b" = "a__b" ∧
    sanitizeForFileSystem "a!!b" ≠ sanitizeSpecClaim "a!!b" := by
  have h : sanitizeForFileSystem "a!!b" = "a_b" := by
    simp only [sanitizeForFileSystem, collapseRuns_eq_scan]
    decide
  have h2 : sanitizeSpecClaim "a!!b" = "a__b" := by decide
  refine ⟨h, h2, ?_⟩
  rw [h, h2]
  decide

/-- C3 amended: the artifact name is computed by trimming whitespace,
replacing each *maximal run* of characters outside `[A-Za-z0-9-_]` with a
single underscore, truncating to 40 characters, and falling back to the
fixed default `"child"` exactly when the trimmed input is empty; the result
never exceeds 40 characters. -/
theorem sanitize_amended (value : String) :
    sanitizeForFileSystem value = sanitizeSpecAmended value ∧
    (sanitizeForFileSystem value).length ≤ 40 := by
  have heq : sanitizeForFileSystem value = sanitizeSpecAmended value := by
    rw [sanitizeForFileSystem, sanitizeSpecAmended, collapseRuns_eq_scan]
    cases htrim : trimChars value.data with
    | nil => simp [collapseScan]
    | cons c cs =>
        have hne := collapseScan_cons_ne_nil c cs
        have hlen : (collapseScan false (c :: cs)).length ≠ 0 := by
          simpa [List.length_eq_zero] using hne
        simp [hlen]
  refine ⟨heq, ?_⟩
  rw [heq, sanitizeSpecAmended]
  by_cases htrim : (trimChars value.data).isEmpty
  · simp only [htrim, if_pos]
    decide
  · simp only [htrim, if_neg, Bool.false_eq_true, not_false_iff]
    show ((collapseScan false (trimChars value.data)).take 40).asString.length ≤ 40
    have : ((collapseScan false (trimChars value.data)).take 40).asString.length =
        ((collapseScan false (trimChars value.data)).take 40).length := rfl
    rw [this, List.length_take]
    exact min_le_left _ _

/-! ## C4 — permission denial during export -/

/-- C4 counterexample: in the permission-denied export run, the PDF document
file is created *before* the permission request (its index in the effect
trace precedes the request's), and it is still present in the trace with no
cleanup effect afterwards — an artifact is produced and left behind even
though permission was refused. -/
theorem export_permission_counterexample :
    exportPdfAndImage dSample false false =
      [.captureDataSet, .pdfFileCreated, .imageSnapshotCaptured,
       .permissionRequested, .alerted "Permission needed"] ∧
    ExportEffect.pdfFileCreated ∈ exportPdfAndImage dSample false false ∧
    List.indexOf ExportEffect.pdfFileCreated (exportPdfAndImage dSample false false) <
      List.indexOf ExportEffect.permissionRequested
        (exportPdfAndImage dSample false false) := by
  refine ⟨rfl, ?_, ?_⟩ <;> decide

/-- C4 amended: when media-library permission is denied the handler alerts
the user and saves nothing to the media library (no asset, no album);
however, the PDF document file and the offscreen snapshot are both produced
before the permission request and are left behind, the trace being exactly
the five listed effects. -/
theorem export_denied_leaves_pdf (data : ChildFormData) (albumExists : Bool) :
    exportPdfAndImage data false albumExists =
      [.captureDataSet, .pdfFileCreated, .imageSnapshotCaptured,
       .permissionRequested, .alerted "Permission needed"] ∧
    ExportEffect.alerted "Permission needed" ∈ exportPdfAndImage data false albumExists ∧
    ExportEffect.assetSavedToLibrary ∉ exportPdfAndImage data false albumExists ∧
    (∀ name, ExportEffect.albumCreated name ∉ exportPdfAndImage data false albumExists) ∧
    (∀ name, ExportEffect.assetAddedToAlbum name ∉ exportPdfAndImage data false albumExists) ∧
    ExportEffect.pdfFileCreated ∈ exportPdfAndImage data false albumExists ∧
    ExportEffect.imageSnapshotCaptured ∈ exportPdfAndImage data false albumExists := by
  have h : exportPdfAndImage data false albumExists =
      [.captureDataSet, .pdfFileCreated, .imageSnapshotCaptured,
       .permissionRequested, .alerted "Permission needed"] := rfl
  refine ⟨h, ?_, ?_, ?_, ?_, ?_, ?_⟩ <;> simp [h]

/-- Witness for C4 amended: the concrete denied run at the sample record. -/
theorem export_denied_leaves_pdf_witness :
    exportPdfAndImage dSample false true =
      [.captureDataSet, .pdfFileCreated, .imageSnapshotCaptured,
       .permissionRequested, .alerted "Permission needed"] ∧
    ExportEffect.assetSavedToLibrary ∉ exportPdfAndImage dSample false true ∧
    ExportEffect.albumCreated ("ChildGuardID - " ++ sanitizeForFileSystem dSample.fullName) ∉
      exportPdfAndImage dSample false true :=
  ⟨(export_denied_leaves_pdf dSample true).1,
   (export_denied_leaves_pdf dSample true).2.2.1,
   (export_denied_leaves_pdf dSample true).2.2.2.1 _⟩

/-! ## C5 — document vs image field content -/

/-- A validated record whose name carries leading/trailing blanks (length 4
passes the 2-character minimum). -/
def dPadded : ChildFormData := ⟨" Al ", 5, 110, 18, none, none⟩

/-- C5 counterexample: the raw input with name `" Al "` validates, but the
document renders the name verbatim as `" Al "` while the capture card trims
it to `"Al"`; moreover, with no gender given, the document falls back to the
em dash while the card falls back to its mis-encoded three-character
sequence — the two artifacts disagree on field content for a validated
profile. -/
theorem artifact_content_counterexample :
    validateChild ⟨.str " Al ", .str "5", .str "110", .str "18", .undef, .undef⟩ =
      .ok dPadded ∧
    (pdfContent dPadded).name = " Al " ∧
    (captureContent dPadded).name = "Al" ∧
    (pdfContent dPadded).gender = "—" ∧
    (captureContent dPadded).gender = "â€”" ∧
    (pdfContent dPadded).gender ≠ (captureContent dPadded).gender ∧
    pdfContent dPadded ≠ captureContent dPadded := by
  refine ⟨rfl, rfl, rfl, rfl, rfl, ?_, ?_⟩ <;> decide

/-- C5 amended: the document and the export-variant capture card agree on
title, age, height, weight and medical notes (same `"None provided"`
placeholder) for every record; they differ in two places: the name line —
the document interpolates `fullName` verbatim while the card trims it and
substitutes `"Name missing"` when blank — and the gender fallback, where the
document uses the em dash but the card uses its mis-encoded three-character
sequence, so the gender lines agree exactly when a nonempty gender is
given.  The contents coincide exactly for records whose name is nonempty
and free of leading/trailing whitespace and whose gender is present and
nonempty. -/
theorem artifact_content_amended (d : ChildFormData) :
    (pdfContent d).title = (captureContent d).title ∧
    (pdfContent d).age = (captureContent d).age ∧
    (pdfContent d).height = (captureContent d).height ∧
    (pdfContent d).weight = (captureContent d).weight ∧
    (pdfContent d).notes = (captureContent d).notes ∧
    (pdfContent d).gender = jsOrElse d.gender "—" ∧
    (captureContent d).gender = jsOrElse d.gender "â€”" ∧
    (∀ g, d.gender = some g → g ≠ "" →
      (pdfContent d).gender = (captureContent d).gender) ∧
    ((d.gender = none ∨ d.gender = some "") →
      (pdfContent d).gender ≠ (captureContent d).gender) ∧
    (pdfContent d).name = d.fullName ∧
    (captureContent d).name =
      (if (jsTrim d.fullName).isEmpty then "Name missing" else jsTrim d.fullName) ∧
    (jsTrim d.fullName = d.fullName → d.fullName ≠ "" →
      ∀ g, d.gender = some g → g ≠ "" → pdfContent d = captureContent d) := by
  refine ⟨rfl, rfl, rfl, rfl, rfl, rfl, rfl, ?_, ?_, rfl, rfl, ?_⟩
  · intro g hg hgne
    have hgempty : g.isEmpty = false := by
      rw [Bool.eq_false_iff]
      intro hE
      exact hgne ((String.isEmpty_iff _).mp hE)
    simp [pdfContent, captureContent, jsOrElse, hg, hgempty]
  · intro h
    rcases h with h | h <;> simp only [pdfContent, captureContent, jsOrElse, h] <;> decide
  · intro h1 h2 g hg hgne
    have hempty : d.fullName.isEmpty = false := by
      rw [Bool.eq_false_iff]
      intro hE
      exact h2 ((String.isEmpty_iff _).mp hE)
    have hgempty : g.isEmpty = false := by
      rw [Bool.eq_false_iff]
      intro hE
      exact hgne ((String.isEmpty_iff _).mp hE)
    simp [pdfContent, captureContent, jsOrElse, h1, hempty, hg, hgempty]

/-- A validated record with a nonempty gender. -/
def dGendered : ChildFormData := ⟨"Al", 5, 110, 18, some "F", none⟩

/-- Witness for C5 amended: with a trim-stable nonempty name and a nonempty
gender, the two artifacts agree field for field. -/
theorem artifact_content_amended_witness :
    (pdfContent dGendered).notes = (captureContent dGendered).notes ∧
    (pdfContent dGendered).gender = (captureContent dGendered).gender ∧
    pdfContent dGendered = captureContent dGendered :=
  ⟨(artifact_content_amended dGendered).2.2.2.2.1,
   (artifact_content_amended dGendered).2.2.2.2.2.2.2.1 "F" rfl (by decide),
   (artifact_content_amended dGendered).2.2.2.2.2.2.2.2.2.2.2 rfl (by decide)
     "F" rfl (by decide)⟩

/-! ## C10 — verbatim interpolation in the document -/

/-- C10: `buildPdfHtml` interpolates `fullName`, `gender` and
`medicalNotes` into the document verbatim, with no escaping: each value
(the latter two when present and nonempty, the nonempty case being the one
in which the `||` fallback does not replace them) occurs as a raw substring
of the produced HTML, so user-typed markup becomes part of the document's
markup. -/
theorem pdf_html_verbatim (d : PdfChildData) :
    (∃ u v, buildPdfHtml d = u ++ d.fullName ++ v) ∧
    (∀ g, d.gender = some g → g ≠ "" → ∃ u v, buildPdfHtml d = u ++ g ++ v) ∧
    (∀ m, d.medicalNotes = some m → m ≠ "" →
      ∃ u v, buildPdfHtml d = u ++ m ++ v) := by
  refine ⟨?_, ?_, ?_⟩
  · exact ⟨pdfSeg1,
      pdfSeg2 ++ dispNum d.age ++ pdfSeg3 ++ jsOrElse d.gender "—" ++ pdfSeg4 ++
        dispNum d.height ++ pdfSeg5 ++ dispNum d.weight ++ pdfSeg6 ++
        jsOrElse d.medicalNotes "None provided" ++ pdfSeg7,
      by simp [buildPdfHtml, String.append_assoc]⟩
  · intro g hg hne
    have hempty : g.isEmpty = false := by
      rw [Bool.eq_false_iff]
      intro hE
      exact hne ((String.isEmpty_iff _).mp hE)
    refine ⟨pdfSeg1 ++ d.fullName ++ pdfSeg2 ++ dispNum d.age ++ pdfSeg3,
      pdfSeg4 ++ dispNum d.height ++ pdfSeg5 ++ dispNum d.weight ++ pdfSeg6 ++
        jsOrElse d.medicalNotes "None provided" ++ pdfSeg7, ?_⟩
    simp [buildPdfHtml, jsOrElse, hg, hempty, String.append_assoc]
  · intro m hm hne
    have hempty : m.isEmpty = false := by
      rw [Bool.eq_false_iff]
      intro hE
      exact hne ((String.isEmpty_iff _).mp hE)
    refine ⟨pdfSeg1 ++ d.fullName ++ pdfSeg2 ++ dispNum d.age ++ pdfSeg3 ++
        jsOrElse d.gender "—" ++ pdfSeg4 ++ dispNum d.height ++ pdfSeg5 ++
        dispNum d.weight ++ pdfSeg6,
      pdfSeg7, ?_⟩
    simp [buildPdfHtml, jsOrElse, hm, hempty, String.append_assoc]

/-- A profile whose text fields contain HTML markup. -/
def dMark : PdfChildData :=
  ⟨"<script>alert(1)</script>", none, none, none, some "<b>bold</b>", some "<i>note</i>"⟩

/-- Witness for C10: markup typed into the fields occurs verbatim in the
document. -/
theorem pdf_html_verbatim_witness :
    (∃ u v, buildPdfHtml dMark = u ++ "<script>alert(1)</script>" ++ v) ∧
    (∃ u v, buildPdfHtml dMark = u ++ "<b>bold</b>" ++ v) ∧
    (∃ u v, buildPdfHtml dMark = u ++ "<i>note</i>" ++ v) :=
  ⟨(pdf_html_verbatim dMark).1,
   (pdf_html_verbatim dMark).2.1 "<b>bold</b>" rfl (by decide),
   (pdf_html_verbatim dMark).2.2 "<i>note</i>" rfl (by decide)⟩

/-! ## C6 — validation range laws -/

/-- When any field check fails, `validateChild` reports exactly the
concatenated issues of all checks. -/
lemma validateChild_error_total (raw : RawChildInput)
    (h : errOf (checkFullName raw.fullName) ++ errOf (checkAge raw.age) ++
      errOf (checkHeight raw.height) ++ errOf (checkWeight raw.weight) ++
      errOf (checkGender raw.gender) ++ errOf (checkNotes raw.medicalNotes) ≠ []) :
    validateChild raw =
      .error (errOf (checkFullName raw.fullName) ++ errOf (checkAge raw.age) ++
        errOf (checkHeight raw.height) ++ errOf (checkWeight raw.weight) ++
        errOf (checkGender raw.gender) ++ errOf (checkNotes raw.medicalNotes)) := by
  unfold validateChild
  cases h1 : checkFullName raw.fullName <;>
    cases h2 : checkAge raw.age <;>
    cases h3 : checkHeight raw.height <;>
    cases h4 : checkWeight raw.weight <;>
    cases h5 : checkGender raw.gender <;>
    cases h6 : checkNotes raw.medicalNotes <;>
    simp_all [errOf]

/-- When every field check succeeds, `validateChild` assembles the record. -/
lemma validateChild_ok (raw : RawChildInput) (n : String) (a h w : Rat)
    (g m : Option String)
    (h1 : checkFullName raw.fullName = .ok n) (h2 : checkAge raw.age = .ok a)
    (h3 : checkHeight raw.height = .ok h) (h4 : checkWeight raw.weight = .ok w)
    (h5 : checkGender raw.gender = .ok g) (h6 : checkNotes raw.medicalNotes = .ok m) :
    validateChild raw = .ok ⟨n, a, h, w, g, m⟩ := by
  unfold validateChild
  rw [h1, h2, h3, h4, h5, h6]

/-- Any single check's issue appears among the reported issues. -/
lemma failsNaming_of_part (raw : RawChildInput) (e : FieldError)
    (he : e ∈ errOf (checkFullName raw.fullName) ++ errOf (checkAge raw.age) ++
      errOf (checkHeight raw.height) ++ errOf (checkWeight raw.weight) ++
      errOf (checkGender raw.gender) ++ errOf (checkNotes raw.medicalNotes)) :
    ∃ errs, validateChild raw = .error errs ∧ e ∈ errs :=
  ⟨_, validateChild_error_total raw (List.ne_nil_of_mem he), he⟩

/-- C6: whenever the name is a string of length ≥ 2, the numeric fields
coerce (JavaScript `Number`) to values with age in [0,18], height in
[30,250], weight ≥ 2, and the optional fields are absent or valid strings
(notes ≤ 300 characters), validation succeeds with the coerced record; and
whenever age, height or weight coerces to a value outside its bound, the
name is a string shorter than 2, or the notes exceed 300 characters,
validation fails with an error naming that field. -/
theorem validation_range_laws :
    (∀ (raw : RawChildInput) (s : String) (a h w : Rat),
      raw.fullName = .str s → 2 ≤ s.length →
      jsNumber raw.age = some a → 0 ≤ a → a ≤ 18 →
      jsNumber raw.height = some h → 30 ≤ h → h ≤ 250 →
      jsNumber raw.weight = some w → 2 ≤ w →
      (raw.gender = .undef ∨ ∃ g, raw.gender = .str g) →
      (raw.medicalNotes = .undef ∨ ∃ m, raw.medicalNotes = .str m ∧ m.length ≤ 300) →
      ∃ g m, validateChild raw = .ok ⟨s, a, h, w, g, m⟩) ∧
    (∀ (raw : RawChildInput) (a : Rat), jsNumber raw.age = some a → a < 0 →
      failsNaming raw .age) ∧
    (∀ (raw : RawChildInput) (a : Rat), jsNumber raw.age = some a → 18 < a →
      failsNaming raw .age) ∧
    (∀ (raw : RawChildInput) (h : Rat), jsNumber raw.height = some h → h < 30 →
      failsNaming raw .height) ∧
    (∀ (raw : RawChildInput) (h : Rat), jsNumber raw.height = some h → 250 < h →
      failsNaming raw .height) ∧
    (∀ (raw : RawChildInput) (w : Rat), jsNumber raw.weight = some w → w < 2 →
      failsNaming raw .weight) ∧
    (∀ (raw : RawChildInput) (s : String), raw.fullName = .str s → s.length < 2 →
      failsNaming raw .fullName) ∧
    (∀ (raw : RawChildInput) (m : String), raw.medicalNotes = .str m →
      300 < m.length → failsNaming raw .medicalNotes) := by
  refine ⟨?_, ?_, ?_, ?_, ?_, ?_, ?_, ?_⟩
  · intro raw s a h w hfn hslen hja ha0 ha18 hjh hh30 hh250 hjw hw2 hg hm
    have c1 : checkFullName raw.fullName = .ok s := by
      rw [hfn]; simp [checkFullName, hslen]
    have c2 : checkAge raw.age = .ok a := by
      simp [checkAge, checkNum, hja, not_lt.mpr ha0, not_lt.mpr ha18]
    have c3 : checkHeight raw.height = .ok h := by
      simp [checkHeight, checkNum, hjh, not_lt.mpr hh30, not_lt.mpr hh250]
    have c4 : checkWeight raw.weight = .ok w := by
      simp [checkWeight, checkNum, hjw, not_lt.mpr hw2]
    rcases hg with hg | ⟨g, hg⟩
    · rcases hm with hm | ⟨m, hm, hmlen⟩
      · exact ⟨none, none, validateChild_ok raw s a h w none none c1 c2 c3 c4
          (by rw [hg]; rfl) (by rw [hm]; rfl)⟩
      · exact ⟨none, some m, validateChild_ok raw s a h w none (some m) c1 c2 c3 c4
          (by rw [hg]; rfl) (by rw [hm]; simp [checkNotes, checkOptStr, hmlen])⟩
    · rcases hm with hm | ⟨m, hm, hmlen⟩
      · exact ⟨some g, none, validateChild_ok raw s a h w (some g) none c1 c2 c3 c4
          (by rw [hg]; rfl) (by rw [hm]; rfl)⟩
      · exact ⟨some g, some m, validateChild_ok raw s a h w (some g) (some m) c1 c2 c3 c4
          (by rw [hg]; rfl) (by rw [hm]; simp [checkNotes, checkOptStr, hmlen])⟩
  · intro raw a hja hlt
    have he : checkAge raw.age = .error ⟨.age, "Age cannot be negative"⟩ := by
      simp [checkAge, checkNum, hja, hlt]
    obtain ⟨errs, heq, hmem⟩ := failsNaming_of_part raw ⟨.age, "Age cannot be negative"⟩
      (by simp [errOf, he])
    exact ⟨errs, heq, _, hmem, rfl⟩
  · intro raw a hja hgt
    have hnlt : ¬ a < 0 := by
      intro hc
      exact absurd (lt_trans hc (by norm_num)) (not_lt.mpr (le_of_lt hgt))
    have he : checkAge raw.age = .error ⟨.age, "Must be under 18"⟩ := by
      simp [checkAge, checkNum, hja, hnlt, hgt]
    obtain ⟨errs, heq, hmem⟩ := failsNaming_of_part raw ⟨.age, "Must be under 18"⟩
      (by simp [errOf, he])
    exact ⟨errs, heq, _, hmem, rfl⟩
  · intro raw h hjh hlt
    have he : checkHeight raw.height = .error ⟨.height, "Height (cm) seems too low"⟩ := by
      simp [checkHeight, checkNum, hjh, hlt]
    obtain ⟨errs, heq, hmem⟩ := failsNaming_of_part raw ⟨.height, "Height (cm) seems too low"⟩
      (by simp [errOf, he])
    exact ⟨errs, heq, _, hmem, rfl⟩
  · intro raw h hjh hgt
    have hnlt : ¬ h < 30 := by
      intro hc
      exact absurd (lt_trans hc (by norm_num)) (not_lt.mpr (le_of_lt hgt))
    have he : checkHeight raw.height = .error ⟨.height, "Height seems too high"⟩ := by
      simp [checkHeight, checkNum, hjh, hnlt, hgt]
    obtain ⟨errs, heq, hmem⟩ := failsNaming_of_part raw ⟨.height, "Height seems too high"⟩
      (by simp [errOf, he])
    exact ⟨errs, heq, _, hmem, rfl⟩
  · intro raw w hjw hlt
    have he : checkWeight raw.weight = .error ⟨.weight, "Weight (kg) seems too low"⟩ := by
      simp [checkWeight, checkNum, hjw, hlt]
    obtain ⟨errs, heq, hmem⟩ := failsNaming_of_part raw ⟨.weight, "Weight (kg) seems too low"⟩
      (by simp [errOf, he])
    exact ⟨errs, heq, _, hmem, rfl⟩
  · intro raw s hfn hslen
    have he : checkFullName raw.fullName =
        .error ⟨.fullName, "Name must be at least 2 characters"⟩ := by
      rw [hfn]; simp [checkFullName, not_le.mpr hslen]
    obtain ⟨errs, heq, hmem⟩ := failsNaming_of_part raw
      ⟨.fullName, "Name must be at least 2 characters"⟩ (by simp [errOf, he])
    exact ⟨errs, heq, _, hmem, rfl⟩
  · intro raw m hmn hmlen
    have he : checkNotes raw.medicalNotes =
        .error ⟨.medicalNotes, "Notes are too long (max 300 chars)"⟩ := by
      rw [hmn]; simp [checkNotes, checkOptStr, not_le.mpr hmlen]
    obtain ⟨errs, heq, hmem⟩ := failsNaming_of_part raw
      ⟨.medicalNotes, "Notes are too long (max 300 chars)"⟩ (by simp [errOf, he])
    exact ⟨errs, heq, _, hmem, rfl⟩

/-- Concrete raw inputs exercising each validation law. -/
def rawOk : RawChildInput := ⟨.str "Al", .str "5", .str "110", .str "18", .undef, .undef⟩
def rawAgeLow : RawChildInput := ⟨.str "Al", .str "-1", .str "110", .str "18", .undef, .undef⟩
def rawAgeHigh : RawChildInput := ⟨.str "Al", .str "19", .str "110", .str "18", .undef, .undef⟩
def rawHeightLow : RawChildInput := ⟨.str "Al", .str "5", .str "29", .str "18", .undef, .undef⟩
def rawHeightHigh : RawChildInput := ⟨.str "Al", .str "5", .str "251", .str "18", .undef, .undef⟩
def rawWeightLow : RawChildInput := ⟨.str "Al", .str "5", .str "110", .str "1", .undef, .undef⟩
def rawNameShort : RawChildInput := ⟨.str "A", .str "5", .str "110", .str "18", .undef, .undef⟩
def rawNotesLong : RawChildInput :=
  ⟨.str "Al", .str "5", .str "110", .str "18", .undef,
   .str (String.mk (List.replicate 301 'a'))⟩

set_option maxRecDepth 4000 in
/-- Witness for C6: the sample input validates; each one-unit-outside input
fails naming its field. -/
theorem validation_range_laws_witness :
    (∃ g m, validateChild rawOk = .ok ⟨"Al", 5, 110, 18, g, m⟩) ∧
    failsNaming rawAgeLow .age ∧
    failsNaming rawAgeHigh .age ∧
    failsNaming rawHeightLow .height ∧
    failsNaming rawHeightHigh .height ∧
    failsNaming rawWeightLow .weight ∧
    failsNaming rawNameShort .fullName ∧
    failsNaming rawNotesLong .medicalNotes := by
  refine ⟨?_, ?_, ?_, ?_, ?_, ?_, ?_, ?_⟩
  · exact validation_range_laws.1 rawOk "Al" 5 110 18 rfl (by decide) rfl (by decide)
      (by decide) rfl (by decide) (by decide) rfl (by decide) (Or.inl rfl) (Or.inl rfl)
  · exact validation_range_laws.2.1 rawAgeLow (-1) rfl (by decide)
  · exact validation_range_laws.2.2.1 rawAgeHigh 19 rfl (by decide)
  · exact validation_range_laws.2.2.2.1 rawHeightLow 29 rfl (by decide)
  · exact validation_range_laws.2.2.2.2.1 rawHeightHigh 251 rfl (by decide)
  · exact validation_range_laws.2.2.2.2.2.1 rawWeightLow 1 rfl (by decide)
  · exact validation_range_laws.2.2.2.2.2.2.1 rawNameShort "A" rfl (by decide)
  · exact validation_range_laws.2.2.2.2.2.2.2 rawNotesLong
      (String.mk (List.replicate 301 'a')) rfl (by decide)

/-! ## C9 — JavaScript coercion of empty and absent numeric fields -/

/-- Raw input whose age field is the empty string. -/
def rawAgeEmpty : RawChildInput :=
  ⟨.str "Alex", .str "", .str "110", .str "18", .undef, .undef⟩

/-- Raw input whose height field is the empty string. -/
def rawHeightEmpty : RawChildInput :=
  ⟨.str "Alex", .str "4", .str "", .str "18", .undef, .undef⟩

/-- Raw input whose weight field is the empty string. -/
def rawWeightEmpty : RawChildInput :=
  ⟨.str "Alex", .str "4", .str "110", .str "", .undef, .undef⟩

/-- Raw input whose age field is absent (`undefined`). -/
def rawAgeUndef : RawChildInput :=
  ⟨.str "Alex", .undef, .str "110", .str "18", .undef, .undef⟩

/-- C9 counterexample: the non-numeric *string* `"abc"` also fails coercion
outright (JavaScript `Number("abc")` is NaN, reported with the invalid-type
message), although it is not the absent (`undefined`) value — so `undefined`
is not the only input that fails coercion outright. -/
theorem coercion_counterexample :
    jsNumber (.str "abc") = none ∧
    RawValue.str "abc" ≠ RawValue.undef ∧
    validateChild ⟨.str "Alex", .str "abc", .str "110", .str "18", .undef, .undef⟩ =
      .error [⟨.age, "Expected number, received nan"⟩] :=
  ⟨rfl, by decide, rfl⟩

/-- C9 amended: coercion is JavaScript `Number` conversion: the empty string
converts to `0`, so an empty age validates as `0` (inside [0,18]) and is
persisted as age `0`, while an empty height or weight fails its lower bound
with the corresponding range message; an absent (`undefined`) numeric field
fails coercion outright with the invalid-type message, as does any
non-numeric string. -/
theorem coercion_empty_and_absent :
    jsNumber (.str "") = some 0 ∧
    validateChild rawAgeEmpty = .ok ⟨"Alex", 0, 110, 18, none, none⟩ ∧
    (onSubmit none ⟨"Alex", 0, 110, 18, none, none⟩ ⟨none, none⟩ 7 7).2.children_list =
      some [⟨"7", "Alex", 0, 110, 18, none, none⟩] ∧
    validateChild rawHeightEmpty = .error [⟨.height, "Height (cm) seems too low"⟩] ∧
    validateChild rawWeightEmpty = .error [⟨.weight, "Weight (kg) seems too low"⟩] ∧
    validateChild rawAgeUndef = .error [⟨.age, "Expected number, received nan"⟩] ∧
    jsNumber .undef = none ∧
    jsNumber (.str "abc") = none :=
  ⟨rfl, rfl, rfl, rfl, rfl, rfl, rfl, rfl⟩

end ChildGuard
